import Mathlib

/-!
Verification of the `mould` session protocol module (`src/session.rs`).

The module decodes untrusted wire messages (JSON text pulled from a `Flow`
transport) into a typed `Input` vocabulary, and encodes typed `Output`
values back to wire messages.  We embed the JSON data model of `serde_json`
(`Value`, `Map`, `Number`) shallowly, translate `Context::recv`,
`Context::recv_request_or_resume`, `Context::recv_next_or_suspend` and
`Context::send` into Lean functions, and prove the protocol properties.
-/

set_option autoImplicit false

namespace Mould

/-- Embedding of `serde_json::Number`.  A parsed JSON number is stored as a
non-negative integer fitting `u64` (`posInt`), a negative integer fitting
`i64` (`negInt`), or a double (`float`) for everything else — in particular
non-integers and integers outside the 64-bit ranges end up as `float`.
Claims discussed here never consume the double's value, so `float` carries
no payload. -/
inductive JNumber where
  | posInt (n : Nat)
  | negInt (i : Int)
  | float
  deriving DecidableEq, Repr

/-- Embedding of `serde_json::Number::as_u64`: only the `posInt` form holds
a `u64`, so only it yields a value. -/
def JNumber.asU64 : JNumber → Option Nat
  | .posInt n => some n
  | .negInt _ => none
  | .float => none

/-- Embedding of `serde_json::Value`.  Objects are association lists with
unique keys (a `serde_json::Map` cannot hold a key twice). -/
inductive JValue where
  | null
  | bool (b : Bool)
  | num (n : JNumber)
  | str (s : String)
  | arr (elems : List JValue)
  | obj (fields : List (String × JValue))

/-- Objects of the wire data model: `pub type Object = Map<String, Value>`. -/
abbrev Object := List (String × JValue)

/-- Embedding of `serde_json::Map::remove`: take out the entry with the given
key (the first occurrence; keys are unique in a `Map`), returning the removed
value — if any — together with the remaining map. -/
def removeKey : Object → String → Option JValue × Object
  | [], _ => (none, [])
  | (k, v) :: rest, key =>
      if k = key then (some v, rest)
      else
        let (found, rest2) := removeKey rest key
        (found, (k, v) :: rest2)

/-- Embedding of `flow::Error`, opaque to the session module. -/
structure FlowError where
  code : Nat
  deriving DecidableEq, Repr

/-- Embedding of the worker failure cause `Box<error::Error>`, opaque to the
session module. -/
structure WorkerError where
  message : String
  deriving DecidableEq, Repr

/-- Embedding of `session::Error`. -/
inductive Error where
  | illegalJsonFormat
  | illegalEventType
  | illegalEventName (name : String)
  | illegalMessage
  | illegalDataFormat
  | illegalTaskId
  | illegalRequestFormat
  | serviceNotFound
  | dataNotProvided
  | unexpectedState
  | canceled
  | connectionClosed
  | connectorFail (cause : FlowError)
  | workerFailed (cause : WorkerError)
  | workerNotFound
  | cannotSuspend

/-- Embedding of `session::Request`. -/
structure Request where
  action : String
  payload : Object

/-- Embedding of `session::TaskId = usize`. -/
abbrev TaskId := Nat

/-- Embedding of `session::Input`. -/
inductive Input where
  | request (service : String) (req : Request)
  | next (req : Option Request)
  | suspend
  | resume (id : TaskId)

/-- Embedding of `session::Output`. -/
inductive Output where
  | ready
  | item (data : Object)
  | done
  | reject (message : String)
  | fail (message : String)
  | suspended (id : TaskId)

/-- Embedding of `session::Alternative`. -/
inductive Alt (T U : Type) where
  | usual (t : T)
  | unusual (u : U)

/-- Result of running `serde_json::Value::from_str` on a pulled text message.
The JSON parser is external to this repository, so a pulled message is
modelled by its parse: either a syntax failure or a parsed value. -/
inductive Parsed where
  | malformed
  | value (v : JValue)

/-- Result of one `Flow::pull` call: a transport fault, a graceful close
(`Ok(None)`), or one full text message (`Ok(Some(content))`), the latter
modelled by its parse. -/
inductive PullResult where
  | fail (e : FlowError)
  | closed
  | msg (p : Parsed)

/-- Embedding of the `"request"` arm of `Context::recv`: the Rust code is a
sequence of `let field = match data.remove(key) else return Err` steps, so
each step is one function continuing with the fields extracted so far.
This is the last step, `let payload = ...`: an object is required. -/
def decodeRequestPayload (service action : String) (d2 : Object) :
    Except Error Input :=
  match removeKey d2 "payload" with
  | (some (.obj payload), _) =>
      .ok (.request service { action := action, payload := payload })
  | _ => .error .illegalRequestFormat

/-- Second step of the `"request"` arm, `let action = ...`: a string is
required. -/
def decodeRequestAction (service : String) (d1 : Object) :
    Except Error Input :=
  match removeKey d1 "action" with
  | (some (.str action), d2) => decodeRequestPayload service action d2
  | _ => .error .illegalRequestFormat

/-- First step of the `"request"` arm, `let service = ...`, applied to the
removed `"data"` object: a string is required. -/
def decodeRequestData (data : Object) : Except Error Input :=
  match removeKey data "service" with
  | (some (.str service), d1) => decodeRequestAction service d1
  | _ => .error .illegalRequestFormat

/-- Second step of the `"next"` arm's object case, `let payload = ...`: an
object is required. -/
def decodeNextPayload (action : String) (d1 : Object) :
    Except Error (Option Request) :=
  match removeKey d1 "payload" with
  | (some (.obj payload), _) =>
      .ok (some { action := action, payload := payload })
  | _ => .error .illegalRequestFormat

/-- First step of the `"next"` arm's object case, `let action = ...`: a
string is required (the `"next"` event has no `"service"` field). -/
def decodeNextData (data : Object) : Except Error (Option Request) :=
  match removeKey data "action" with
  | (some (.str action), d1) => decodeNextPayload action d1
  | _ => .error .illegalRequestFormat

/-- Embedding of the event dispatch of `Context::recv`: `data` is the parsed
top-level object with the `"event"` entry already removed. -/
def dispatchEvent (event : String) (data : Object) : Except Error Input :=
  if event = "request" then
    match removeKey data "data" with
    | (some (.obj d), _) => decodeRequestData d
    | (some _, _) => .error .illegalDataFormat
    | (none, _) => .error .dataNotProvided
  else if event = "next" then
    match removeKey data "data" with
    | (some (.obj d), _) =>
        match decodeNextData d with
        | .ok req => .ok (.next req)
        | .error e => .error e
    | (some .null, _) => .ok (.next none)
    | (some _, _) => .error .illegalDataFormat
    | (none, _) => .ok (.next none)
  else if event = "resume" then
    match removeKey data "data" with
    | (some (.num taskId), _) =>
        match taskId.asU64 with
        | some id => .ok (.resume id)
        | none => .error .illegalTaskId
    | _ => .error .illegalDataFormat
  else if event = "suspend" then
    .ok .suspend
  else if event = "cancel" then
    .error .canceled
  else
    .error (.illegalEventName event)

/-- Embedding of the body of `Context::recv` applied to one pulled message:
a non-object or unparsable message is `IllegalJsonFormat`; a top-level
object must contain a string `"event"` entry (else `IllegalEventType`),
which is removed and dispatched on. -/
def decodeMessage (p : Parsed) : Except Error Input :=
  match p with
  | .malformed => .error .illegalJsonFormat
  | .value v =>
    match v with
    | .obj fields =>
      match removeKey fields "event" with
      | (some (.str event), rest) => dispatchEvent event rest
      | _ => .error .illegalEventType
    | _ => .error .illegalJsonFormat

/-- Embedding of `Context::recv` as a function of the result of the single
`Flow::pull` it performs: a pull fault is converted by `From<flow::Error>`
into `ConnectorFail`, a graceful close is `ConnectionClosed`, and a message
is decoded. -/
def recvPure (r : PullResult) : Except Error Input :=
  match r with
  | .fail e => .error (.connectorFail e)
  | .closed => .error .connectionClosed
  | .msg p => decodeMessage p

/-- Embedding of `Context::recv_request_or_resume` as a function of the pull
result consumed by the underlying `recv`. -/
def recvRequestOrResume (r : PullResult) :
    Except Error (Alt (String × Request) TaskId) :=
  match recvPure r with
  | .ok (.request service req) => .ok (.usual (service, req))
  | .ok (.resume taskId) => .ok (.unusual taskId)
  | .ok _ => .error .unexpectedState
  | .error ie => .error ie

/-- Embedding of `Context::recv_next_or_suspend` as a function of the pull
result consumed by the underlying `recv`. -/
def recvNextOrSuspend (r : PullResult) :
    Except Error (Alt (Option Request) Unit) :=
  match recvPure r with
  | .ok (.next req) => .ok (.usual req)
  | .ok .suspend => .ok (.unusual ())
  | .ok _ => .error .unexpectedState
  | .error ie => .error ie

/-- Embedding of the `json!` encodings in `Context::send`: the exact value
built for each `Output` variant (`serde_json` objects compare by their
field sets; the insertion order of the literals is kept here). -/
def encodeOutput : Output → JValue
  | .item data => .obj [("event", .str "item"), ("data", .obj data)]
  | .ready => .obj [("event", .str "ready")]
  | .done => .obj [("event", .str "done")]
  | .reject message => .obj [("event", .str "reject"), ("data", .str message)]
  | .fail message => .obj [("event", .str "fail"), ("data", .str message)]
  | .suspended taskId =>
      .obj [("event", .str "suspended"), ("data", .num (.posInt taskId))]

/-- State of one `Flow` instance: `stream n` is the result of the `n`-th
`pull` call (`cursor` pulls already happened), `pushResults n` the outcome
of the `n`-th `push` call (`none` = `Ok`), and `pushed` records every value
handed to `push`, in order. -/
structure FlowState where
  stream : Nat → PullResult
  cursor : Nat
  pushResults : Nat → Option FlowError
  pushed : List JValue

/-- One `Flow::pull` call: yields the next stream element and advances the
cursor; nothing is pushed. -/
def flowPull (f : FlowState) : PullResult × FlowState :=
  (f.stream f.cursor, { f with cursor := f.cursor + 1 })

/-- One `Flow::push` call: records the value and reports the transport
outcome. -/
def flowPush (f : FlowState) (v : JValue) : Option FlowError × FlowState :=
  (f.pushResults f.pushed.length, { f with pushed := f.pushed ++ [v] })

/-- Embedding of `session::Context`: exclusive owner of one `Flow` and one
`Session` (the session type is opaque, hence a type parameter). -/
structure Context (T : Type) where
  client : FlowState
  session : T

/-- Embedding of `Deref for Context`: ordinary access forwards to the
session. -/
def Context.deref {T : Type} (c : Context T) : T :=
  c.session

/-- Embedding of `Context::new`: takes ownership of both, performs no
input/output. -/
def Context.new {T : Type} (client : FlowState) (session : T) : Context T :=
  { client := client, session := session }

/-- Stateful embedding of `Context::recv`: performs exactly one `pull` and
decodes its result. -/
def Context.recv {T : Type} (c : Context T) :
    Except Error Input × Context T :=
  let (r, f2) := flowPull c.client
  (recvPure r, { c with client := f2 })

/-- Stateful embedding of `Context::recv_request_or_resume`. -/
def Context.recvRequestOrResume {T : Type} (c : Context T) :
    Except Error (Alt (String × Request) TaskId) × Context T :=
  let (r, f2) := flowPull c.client
  (Mould.recvRequestOrResume r, { c with client := f2 })

/-- Stateful embedding of `Context::recv_next_or_suspend`. -/
def Context.recvNextOrSuspend {T : Type} (c : Context T) :
    Except Error (Alt (Option Request) Unit) × Context T :=
  let (r, f2) := flowPull c.client
  (Mould.recvNextOrSuspend r, { c with client := f2 })

/-- Stateful embedding of `Context::send`: encodes the output, performs
exactly one `push`, and converts a transport fault into `ConnectorFail`. -/
def Context.send {T : Type} (c : Context T) (out : Output) :
    Except Error Unit × Context T :=
  let (r, f2) := flowPush c.client (encodeOutput out)
  match r with
  | none => (.ok (), { c with client := f2 })
  | some e => (.error (.connectorFail e), { c with client := f2 })

/-- A pulled message whose parse is a top-level object with the given
fields. -/
def objMsg (fields : Object) : PullResult :=
  .msg (.value (.obj fields))

/-- Decoding a pulled top-level object whose `"event"` entry is the given
string reduces to the event dispatch on the remaining fields. -/
lemma decode_obj_event (fields rest : Object) (event : String)
    (hev : removeKey fields "event" = (some (JValue.str event), rest)) :
    recvPure (objMsg fields) = dispatchEvent event rest := by
  simp only [recvPure, objMsg, decodeMessage, hev]

/-- The `"request"` arm of the event dispatch, spelled out. -/
lemma dispatch_request (data : Object) :
    dispatchEvent "request" data =
      match removeKey data "data" with
      | (some (.obj d), _) => decodeRequestData d
      | (some _, _) => .error .illegalDataFormat
      | (none, _) => .error .dataNotProvided := rfl

/-- The `"next"` arm of the event dispatch, spelled out. -/
lemma dispatch_next (data : Object) :
    dispatchEvent "next" data =
      match removeKey data "data" with
      | (some (.obj d), _) =>
          match decodeNextData d with
          | .ok req => .ok (.next req)
          | .error e => .error e
      | (some .null, _) => .ok (.next none)
      | (some _, _) => .error .illegalDataFormat
      | (none, _) => .ok (.next none) := rfl

/-- The `"resume"` arm of the event dispatch, spelled out. -/
lemma dispatch_resume (data : Object) :
    dispatchEvent "resume" data =
      match removeKey data "data" with
      | (some (.num taskId), _) =>
          match taskId.asU64 with
          | some id => .ok (.resume id)
          | none => .error .illegalTaskId
      | _ => .error .illegalDataFormat := rfl

/-- Without a string `"service"` entry, decoding request data fails with
`IllegalRequestFormat`. -/
lemma decodeRequestData_no_service (d : Object)
    (h : ∀ s, (removeKey d "service").1 ≠ some (JValue.str s)) :
    decodeRequestData d = .error .illegalRequestFormat := by
  unfold decodeRequestData
  rcases hs : removeKey d "service" with ⟨o, d1⟩
  rw [hs] at h
  cases o with
  | none => rfl
  | some v =>
    cases v with
    | str s => exact absurd rfl (h s)
    | null => rfl
    | bool b => rfl
    | num n => rfl
    | arr xs => rfl
    | obj f => rfl

/-- Finding a string `"service"` entry passes control to the `"action"`
step. -/
lemma decodeRequestData_service_found (d : Object) (s : String) (d1 : Object)
    (hs : removeKey d "service" = (some (JValue.str s), d1)) :
    decodeRequestData d = decodeRequestAction s d1 := by
  unfold decodeRequestData
  rw [hs]

/-- Finding a string `"action"` entry passes control to the `"payload"`
step. -/
lemma decodeRequestAction_action_found (s : String) (d1 : Object)
    (a : String) (d2 : Object)
    (ha : removeKey d1 "action" = (some (JValue.str a), d2)) :
    decodeRequestAction s d1 = decodeRequestPayload s a d2 := by
  unfold decodeRequestAction
  rw [ha]

/-- With a string `"service"` but no string `"action"` entry, decoding
request data fails with `IllegalRequestFormat`. -/
lemma decodeRequestData_no_action (d : Object) (s : String) (d1 : Object)
    (hs : removeKey d "service" = (some (JValue.str s), d1))
    (h : ∀ a, (removeKey d1 "action").1 ≠ some (JValue.str a)) :
    decodeRequestData d = .error .illegalRequestFormat := by
  rw [decodeRequestData_service_found d s d1 hs]
  unfold decodeRequestAction
  rcases ha : removeKey d1 "action" with ⟨o, d2⟩
  rw [ha] at h
  cases o with
  | none => rfl
  | some v =>
    cases v with
    | str a => exact absurd rfl (h a)
    | null => rfl
    | bool b => rfl
    | num n => rfl
    | arr xs => rfl
    | obj f => rfl

/-- With string `"service"` and `"action"` but no object `"payload"` entry,
decoding request data fails with `IllegalRequestFormat`. -/
lemma decodeRequestData_no_payload (d : Object) (s : String) (d1 : Object)
    (a : String) (d2 : Object)
    (hs : removeKey d "service" = (some (JValue.str s), d1))
    (ha : removeKey d1 "action" = (some (JValue.str a), d2))
    (h : ∀ p, (removeKey d2 "payload").1 ≠ some (JValue.obj p)) :
    decodeRequestData d = .error .illegalRequestFormat := by
  rw [decodeRequestData_service_found d s d1 hs,
    decodeRequestAction_action_found s d1 a d2 ha]
  unfold decodeRequestPayload
  rcases hp : removeKey d2 "payload" with ⟨o, d3⟩
  rw [hp] at h
  cases o with
  | none => rfl
  | some v =>
    cases v with
    | obj p => exact absurd rfl (h p)
    | null => rfl
    | bool b => rfl
    | num n => rfl
    | str t => rfl
    | arr xs => rfl

/-- With all three fields well-typed, decoding request data succeeds. -/
lemma decodeRequestData_ok (d : Object) (s : String) (d1 : Object)
    (a : String) (d2 : Object) (p : Object) (d3 : Object)
    (hs : removeKey d "service" = (some (JValue.str s), d1))
    (ha : removeKey d1 "action" = (some (JValue.str a), d2))
    (hp : removeKey d2 "payload" = (some (JValue.obj p), d3)) :
    decodeRequestData d = .ok (.request s { action := a, payload := p }) := by
  rw [decodeRequestData_service_found d s d1 hs,
    decodeRequestAction_action_found s d1 a d2 ha]
  unfold decodeRequestPayload
  rw [hp]

/-- Finding a string `"action"` entry in next data passes control to the
`"payload"` step. -/
lemma decodeNextData_action_found (d : Object) (a : String) (d1 : Object)
    (ha : removeKey d "action" = (some (JValue.str a), d1)) :
    decodeNextData d = decodeNextPayload a d1 := by
  unfold decodeNextData
  rw [ha]

/-- Without a string `"action"` entry, decoding next data fails with
`IllegalRequestFormat`. -/
lemma decodeNextData_no_action (d : Object)
    (h : ∀ a, (removeKey d "action").1 ≠ some (JValue.str a)) :
    decodeNextData d = .error .illegalRequestFormat := by
  unfold decodeNextData
  rcases ha : removeKey d "action" with ⟨o, d1⟩
  rw [ha] at h
  cases o with
  | none => rfl
  | some v =>
    cases v with
    | str a => exact absurd rfl (h a)
    | null => rfl
    | bool b => rfl
    | num n => rfl
    | arr xs => rfl
    | obj f => rfl

/-- With a string `"action"` but no object `"payload"` entry, decoding next
data fails with `IllegalRequestFormat`. -/
lemma decodeNextData_no_payload (d : Object) (a : String) (d1 : Object)
    (ha : removeKey d "action" = (some (JValue.str a), d1))
    (h : ∀ p, (removeKey d1 "payload").1 ≠ some (JValue.obj p)) :
    decodeNextData d = .error .illegalRequestFormat := by
  rw [decodeNextData_action_found d a d1 ha]
  unfold decodeNextPayload
  rcases hp : removeKey d1 "payload" with ⟨o, d2⟩
  rw [hp] at h
  cases o with
  | none => rfl
  | some v =>
    cases v with
    | obj p => exact absurd rfl (h p)
    | null => rfl
    | bool b => rfl
    | num n => rfl
    | str t => rfl
    | arr xs => rfl

/-- With both fields well-typed, decoding next data succeeds. -/
lemma decodeNextData_ok (d : Object) (a : String) (d1 : Object)
    (p : Object) (d2 : Object)
    (ha : removeKey d "action" = (some (JValue.str a), d1))
    (hp : removeKey d1 "payload" = (some (JValue.obj p), d2)) :
    decodeNextData d = .ok (some { action := a, payload := p }) := by
  rw [decodeNextData_action_found d a d1 ha]
  unfold decodeNextPayload
  rw [hp]

/-- C3: `send(Output)` pushes through Flow exactly the canonical encoding —
each variant carries exactly the listed fields and no extras — and in
particular `Output::Item({"x":1})` encodes to exactly
`{"event":"item","data":{"x":1}}`. -/
theorem claim3_send_canonical_encoding :
    (∀ (T : Type) (c : Context T) (out : Output),
        ((Context.send c out).2).client.pushed =
          c.client.pushed ++ [encodeOutput out])
  ∧ encodeOutput .ready = .obj [("event", .str "ready")]
  ∧ (∀ m, encodeOutput (.item m) =
        .obj [("event", .str "item"), ("data", .obj m)])
  ∧ encodeOutput .done = .obj [("event", .str "done")]
  ∧ (∀ s, encodeOutput (.reject s) =
        .obj [("event", .str "reject"), ("data", .str s)])
  ∧ (∀ s, encodeOutput (.fail s) =
        .obj [("event", .str "fail"), ("data", .str s)])
  ∧ (∀ i, encodeOutput (.suspended i) =
        .obj [("event", .str "suspended"), ("data", .num (.posInt i))])
  ∧ encodeOutput (.item [("x", .num (.posInt 1))]) =
        .obj [("event", .str "item"),
              ("data", .obj [("x", .num (.posInt 1))])] := by
  refine ⟨?_, rfl, fun _ => rfl, rfl, fun _ => rfl, fun _ => rfl,
    fun _ => rfl, rfl⟩
  intro T c out
  unfold Context.send flowPush
  cases c.client.pushResults c.client.pushed.length <;> rfl

/-- C10: `recv()` and `send()` (and the phase-scoped receivers) leave the
session component of the Context unchanged; ordinary access reaches the
session only through the deref forwarding. -/
theorem claim10_session_frame (T : Type) (c : Context T) :
    ((Context.recv c).2).session = c.session
  ∧ (∀ out, ((Context.send c out).2).session = c.session)
  ∧ ((Context.recvRequestOrResume c).2).session = c.session
  ∧ ((Context.recvNextOrSuspend c).2).session = c.session
  ∧ Context.deref c = c.session := by
  refine ⟨rfl, ?_, rfl, rfl, rfl⟩
  intro out
  unfold Context.send flowPush
  cases c.client.pushResults c.client.pushed.length <;> rfl

/-- C9: when the single `pull` performed by `recv()` reports graceful
closure, `recv()` fails with `ConnectionClosed` and the only Flow activity
of the call is that one pull: the cursor advances once and nothing is
pushed. -/
theorem claim9_connection_closed (T : Type) (c : Context T)
    (h : c.client.stream c.client.cursor = .closed) :
    Context.recv c =
      (.error .connectionClosed,
        { c with client := { c.client with cursor := c.client.cursor + 1 } })
  ∧ ((Context.recv c).2).client.pushed = c.client.pushed
  ∧ ((Context.recv c).2).client.cursor = c.client.cursor + 1 := by
  unfold Context.recv flowPull
  rw [h]
  exact ⟨rfl, rfl, rfl⟩

/-- A context over the unit session whose transport is already closed. -/
def closedCtx : Context Unit :=
  { client :=
      { stream := fun _ => .closed
        cursor := 0
        pushResults := fun _ => none
        pushed := [] }
    session := () }

/-- Witness for C9 at a concrete closed transport. -/
theorem claim9_connection_closed_witness :
    (Context.recv closedCtx).1 = .error .connectionClosed
  ∧ ((Context.recv closedCtx).2).client.pushed = closedCtx.client.pushed
  ∧ ((Context.recv closedCtx).2).client.cursor = closedCtx.client.cursor + 1 :=
  ⟨by rw [(claim9_connection_closed Unit closedCtx rfl).1],
    (claim9_connection_closed Unit closedCtx rfl).2.1,
    (claim9_connection_closed Unit closedCtx rfl).2.2⟩

/-- C7: a pulled message with event `"cancel"` never yields an Input —
`recv()` fails with `Canceled`, and so do both phase-scoped receivers. -/
theorem claim7_cancel (fields rest : Object)
    (hev : removeKey fields "event" = (some (JValue.str "cancel"), rest)) :
    recvPure (objMsg fields) = .error .canceled
  ∧ recvRequestOrResume (objMsg fields) = .error .canceled
  ∧ recvNextOrSuspend (objMsg fields) = .error .canceled := by
  have h := decode_obj_event fields rest "cancel" hev
  have hc : recvPure (objMsg fields) = .error .canceled := by
    rw [h]; rfl
  refine ⟨hc, ?_, ?_⟩
  · unfold recvRequestOrResume
    rw [hc]
  · unfold recvNextOrSuspend
    rw [hc]

/-- Witness for C7 at the concrete message `{"event":"cancel"}`. -/
theorem claim7_cancel_witness :
    recvPure (objMsg [("event", JValue.str "cancel")]) = .error .canceled
  ∧ recvRequestOrResume (objMsg [("event", JValue.str "cancel")]) =
      .error .canceled :=
  ⟨(claim7_cancel [("event", JValue.str "cancel")] [] rfl).1,
   (claim7_cancel [("event", JValue.str "cancel")] [] rfl).2.1⟩

/-- C8 counterexample: the wire message
`{"event":"request","data":{"service":"","action":"","payload":{}}}`
carries empty `service` and `action` strings, yet `recv()` decodes it
successfully — the code performs no non-emptiness check. -/
theorem claim8_counterexample :
    recvPure (objMsg
      [("event", JValue.str "request"),
       ("data", JValue.obj
          [("service", JValue.str ""),
           ("action", JValue.str ""),
           ("payload", JValue.obj [])])]) =
      .ok (.request "" { action := "", payload := [] }) := rfl

/-- C8 amended: a Request built from wire data carries the `service` and
`action` strings exactly as supplied, with no non-emptiness validation —
any strings, empty ones included, yield a successfully decoded Input, via
the `"request"` event as well as via an object-carrying `"next"` event. -/
theorem claim8_amended_no_emptiness_check (service action : String)
    (payload : Object) :
    recvPure (objMsg
      [("event", JValue.str "request"),
       ("data", JValue.obj
          [("service", JValue.str service),
           ("action", JValue.str action),
           ("payload", JValue.obj payload)])]) =
      .ok (.request service { action := action, payload := payload })
  ∧ recvPure (objMsg
      [("event", JValue.str "next"),
       ("data", JValue.obj
          [("action", JValue.str action),
           ("payload", JValue.obj payload)])]) =
      .ok (.next (some { action := action, payload := payload })) :=
  ⟨rfl, rfl⟩

/-- C1: a pulled wire message with event `"request"` requires a `"data"`
object holding string `"service"`, string `"action"` and object
`"payload"`: absent `"data"` is `DataNotProvided`, non-object `"data"` is
`IllegalDataFormat`, a missing or wrong-typed field is
`IllegalRequestFormat`, and otherwise `recv()` returns
`Input::Request(service, Request{action, payload})`. -/
theorem claim1_request_decode (fields rest : Object)
    (hev : removeKey fields "event" = (some (JValue.str "request"), rest)) :
    ((removeKey rest "data").1 = none →
        recvPure (objMsg fields) = .error .dataNotProvided)
  ∧ (∀ v, (removeKey rest "data").1 = some v → (∀ d, v ≠ JValue.obj d) →
        recvPure (objMsg fields) = .error .illegalDataFormat)
  ∧ (∀ d r2, removeKey rest "data" = (some (JValue.obj d), r2) →
      ( ((∀ s, (removeKey d "service").1 ≠ some (JValue.str s)) →
            recvPure (objMsg fields) = .error .illegalRequestFormat)
      ∧ (∀ s d1, removeKey d "service" = (some (JValue.str s), d1) →
          ( ((∀ a, (removeKey d1 "action").1 ≠ some (JValue.str a)) →
                recvPure (objMsg fields) = .error .illegalRequestFormat)
          ∧ (∀ a d2, removeKey d1 "action" = (some (JValue.str a), d2) →
              ( ((∀ p, (removeKey d2 "payload").1 ≠ some (JValue.obj p)) →
                    recvPure (objMsg fields) = .error .illegalRequestFormat)
              ∧ (∀ p d3,
                    removeKey d2 "payload" = (some (JValue.obj p), d3) →
                    recvPure (objMsg fields) =
                      .ok (.request s { action := a, payload := p })))))))) := by
  have hb := decode_obj_event fields rest "request" hev
  refine ⟨?_, ?_, ?_⟩
  · intro h
    rw [hb, dispatch_request]
    rcases hrd : removeKey rest "data" with ⟨o, r2⟩
    rw [hrd] at h
    cases o with
    | none => rfl
    | some w => exact Option.noConfusion h
  · intro v h hne
    rw [hb, dispatch_request]
    rcases hrd : removeKey rest "data" with ⟨o, r2⟩
    rw [hrd] at h
    cases o with
    | none => exact Option.noConfusion h
    | some w =>
      replace h : some w = some v := h
      injection h with hw
      subst hw
      cases w with
      | obj d => exact absurd rfl (hne d)
      | null => rfl
      | bool b => rfl
      | num n => rfl
      | str t => rfl
      | arr xs => rfl
  · intro d r2 hrd
    have h2 : recvPure (objMsg fields) = decodeRequestData d := by
      rw [hb, dispatch_request, hrd]
    refine ⟨?_, ?_⟩
    · intro hno
      rw [h2]
      exact decodeRequestData_no_service d hno
    · intro s d1 hs
      refine ⟨?_, ?_⟩
      · intro hno
        rw [h2]
        exact decodeRequestData_no_action d s d1 hs hno
      · intro a d2 ha
        refine ⟨?_, ?_⟩
        · intro hno
          rw [h2]
          exact decodeRequestData_no_payload d s d1 a d2 hs ha hno
        · intro p d3 hp
          rw [h2]
          exact decodeRequestData_ok d s d1 a d2 p d3 hs ha hp

/-- Concrete well-formed `"data"` object for the request witness. -/
def wData : Object :=
  [("service", JValue.str "s"), ("action", JValue.str "a"),
   ("payload", JValue.obj [])]

/-- Concrete well-formed `"request"` message for the request witness. -/
def wFields : Object :=
  [("event", JValue.str "request"), ("data", JValue.obj wData)]

/-- Witness for C1 at a concrete well-formed request message. -/
theorem claim1_request_decode_witness :
    recvPure (objMsg wFields) =
      .ok (.request "s" { action := "a", payload := [] }) :=
  ((((claim1_request_decode wFields [("data", JValue.obj wData)] rfl).2.2
      wData [] rfl).2 "s"
      [("action", JValue.str "a"), ("payload", JValue.obj [])] rfl).2
      "a" [("payload", JValue.obj [])] rfl).2 [] [] rfl

/-- C6: a pulled wire message with event `"next"` treats `"data"` as
optional: absent or explicit null yields `Input::Next(None)`; an object is
decoded as a Request under the same per-field rules as the `"request"`
event, yielding `Input::Next(Some(request))`; anything else is
`IllegalDataFormat`. -/
theorem claim6_next_decode (fields rest : Object)
    (hev : removeKey fields "event" = (some (JValue.str "next"), rest)) :
    ((removeKey rest "data").1 = none →
        recvPure (objMsg fields) = .ok (.next none))
  ∧ ((removeKey rest "data").1 = some JValue.null →
        recvPure (objMsg fields) = .ok (.next none))
  ∧ (∀ v, (removeKey rest "data").1 = some v → (∀ d, v ≠ JValue.obj d) →
        v ≠ JValue.null → recvPure (objMsg fields) = .error .illegalDataFormat)
  ∧ (∀ d r2, removeKey rest "data" = (some (JValue.obj d), r2) →
      ( ((∀ a, (removeKey d "action").1 ≠ some (JValue.str a)) →
            recvPure (objMsg fields) = .error .illegalRequestFormat)
      ∧ (∀ a d1, removeKey d "action" = (some (JValue.str a), d1) →
          ( ((∀ p, (removeKey d1 "payload").1 ≠ some (JValue.obj p)) →
                recvPure (objMsg fields) = .error .illegalRequestFormat)
          ∧ (∀ p d2, removeKey d1 "payload" = (some (JValue.obj p), d2) →
                recvPure (objMsg fields) =
                  .ok (.next (some { action := a, payload := p }))))))) := by
  have hb := decode_obj_event fields rest "next" hev
  refine ⟨?_, ?_, ?_, ?_⟩
  · intro h
    rw [hb, dispatch_next]
    rcases hrd : removeKey rest "data" with ⟨o, r2⟩
    rw [hrd] at h
    cases o with
    | none => rfl
    | some w => exact Option.noConfusion h
  · intro h
    rw [hb, dispatch_next]
    rcases hrd : removeKey rest "data" with ⟨o, r2⟩
    rw [hrd] at h
    cases o with
    | none => exact Option.noConfusion h
    | some w =>
      replace h : some w = some JValue.null := h
      injection h with hw
      subst hw
      rfl
  · intro v h hne hnull
    rw [hb, dispatch_next]
    rcases hrd : removeKey rest "data" with ⟨o, r2⟩
    rw [hrd] at h
    cases o with
    | none => exact Option.noConfusion h
    | some w =>
      replace h : some w = some v := h
      injection h with hw
      subst hw
      cases w with
      | obj d => exact absurd rfl (hne d)
      | null => exact absurd rfl hnull
      | bool b => rfl
      | num n => rfl
      | str t => rfl
      | arr xs => rfl
  · intro d r2 hrd
    have h2 : recvPure (objMsg fields) =
        match decodeNextData d with
        | .ok req => .ok (.next req)
        | .error e => .error e := by
      rw [hb, dispatch_next, hrd]
    refine ⟨?_, ?_⟩
    · intro hno
      rw [h2, decodeNextData_no_action d hno]
    · intro a d1 ha
      refine ⟨?_, ?_⟩
      · intro hno
        rw [h2, decodeNextData_no_payload d a d1 ha hno]
      · intro p d2 hp
        rw [h2, decodeNextData_ok d a d1 p d2 ha hp]

/-- Witness for C6 at the concrete message `{"event":"next"}`. -/
theorem claim6_next_decode_witness :
    recvPure (objMsg [("event", JValue.str "next")]) = .ok (.next none) :=
  (claim6_next_decode [("event", JValue.str "next")] [] rfl).1 rfl

/-- C4: a pulled wire message with event `"resume"` requires a
non-negative integer `"data"` fitting the TaskId range: non-numeric data
is `IllegalDataFormat`, a negative or non-`u64` number is `IllegalTaskId`,
and on success `recv()` returns `Input::Resume(id)` with the integer
unchanged. -/
theorem claim4_resume_decode (fields rest : Object)
    (hev : removeKey fields "event" = (some (JValue.str "resume"), rest)) :
    ((∀ n, (removeKey rest "data").1 ≠ some (JValue.num n)) →
        recvPure (objMsg fields) = .error .illegalDataFormat)
  ∧ (∀ i, (removeKey rest "data").1 = some (JValue.num (.negInt i)) →
        recvPure (objMsg fields) = .error .illegalTaskId)
  ∧ ((removeKey rest "data").1 = some (JValue.num .float) →
        recvPure (objMsg fields) = .error .illegalTaskId)
  ∧ (∀ n, n < 2 ^ 64 →
        (removeKey rest "data").1 = some (JValue.num (.posInt n)) →
        recvPure (objMsg fields) = .ok (.resume n)) := by
  have hb := decode_obj_event fields rest "resume" hev
  refine ⟨?_, ?_, ?_, ?_⟩
  · intro h
    rw [hb, dispatch_resume]
    rcases hrd : removeKey rest "data" with ⟨o, r2⟩
    rw [hrd] at h
    cases o with
    | none => rfl
    | some w =>
      cases w with
      | num n => exact absurd rfl (h n)
      | null => rfl
      | bool b => rfl
      | str t => rfl
      | arr xs => rfl
      | obj f => rfl
  · intro i h
    rw [hb, dispatch_resume]
    rcases hrd : removeKey rest "data" with ⟨o, r2⟩
    rw [hrd] at h
    cases o with
    | none => exact Option.noConfusion h
    | some w =>
      replace h : some w = some (JValue.num (.negInt i)) := h
      injection h with hw
      subst hw
      rfl
  · intro h
    rw [hb, dispatch_resume]
    rcases hrd : removeKey rest "data" with ⟨o, r2⟩
    rw [hrd] at h
    cases o with
    | none => exact Option.noConfusion h
    | some w =>
      replace h : some w = some (JValue.num .float) := h
      injection h with hw
      subst hw
      rfl
  · intro n h64 h
    rw [hb, dispatch_resume]
    rcases hrd : removeKey rest "data" with ⟨o, r2⟩
    rw [hrd] at h
    cases o with
    | none => exact Option.noConfusion h
    | some w =>
      replace h : some w = some (JValue.num (.posInt n)) := h
      injection h with hw
      subst hw
      rfl

/-- Witness for C4 at the concrete message `{"event":"resume","data":-1}`. -/
theorem claim4_resume_decode_witness :
    recvPure (objMsg
      [("event", JValue.str "resume"),
       ("data", JValue.num (.negInt (-1)))]) = .error .illegalTaskId :=
  (claim4_resume_decode
    [("event", JValue.str "resume"), ("data", JValue.num (.negInt (-1)))]
    [("data", JValue.num (.negInt (-1)))] rfl).2.1 (-1) rfl

/-- C2: each phase-scoped receive accepts exactly its two legal inputs —
`recv_request_or_resume` maps `Request` to the usual and `Resume` to the
unusual alternative, `recv_next_or_suspend` maps `Next` to the usual and
`Suspend` to the unusual alternative — rejects every other successfully
decoded Input with `UnexpectedState`, and propagates every `recv()` error
unchanged. -/
theorem claim2_phase_scoped (r : PullResult) :
    (∀ s req, recvPure r = .ok (.request s req) →
        recvRequestOrResume r = .ok (.usual (s, req)))
  ∧ (∀ i, recvPure r = .ok (.resume i) →
        recvRequestOrResume r = .ok (.unusual i))
  ∧ (∀ o, recvPure r = .ok (.next o) →
        recvRequestOrResume r = .error .unexpectedState)
  ∧ (recvPure r = .ok .suspend →
        recvRequestOrResume r = .error .unexpectedState)
  ∧ (∀ o, recvPure r = .ok (.next o) →
        recvNextOrSuspend r = .ok (.usual o))
  ∧ (recvPure r = .ok .suspend →
        recvNextOrSuspend r = .ok (.unusual ()))
  ∧ (∀ s req, recvPure r = .ok (.request s req) →
        recvNextOrSuspend r = .error .unexpectedState)
  ∧ (∀ i, recvPure r = .ok (.resume i) →
        recvNextOrSuspend r = .error .unexpectedState)
  ∧ (∀ e, recvPure r = .error e →
        recvRequestOrResume r = .error e ∧ recvNextOrSuspend r = .error e) := by
  refine ⟨?_, ?_, ?_, ?_, ?_, ?_, ?_, ?_, ?_⟩
  · intro s req h
    unfold recvRequestOrResume
    rw [h]
  · intro i h
    unfold recvRequestOrResume
    rw [h]
  · intro o h
    unfold recvRequestOrResume
    rw [h]
  · intro h
    unfold recvRequestOrResume
    rw [h]
  · intro o h
    unfold recvNextOrSuspend
    rw [h]
  · intro h
    unfold recvNextOrSuspend
    rw [h]
  · intro s req h
    unfold recvNextOrSuspend
    rw [h]
  · intro i h
    unfold recvNextOrSuspend
    rw [h]
  · intro e h
    constructor
    · unfold recvRequestOrResume
      rw [h]
    · unfold recvNextOrSuspend
      rw [h]

/-- Witness for C2: `{"event":"suspend"}` is phase-illegal for
`recv_request_or_resume` and the unusual alternative for
`recv_next_or_suspend`. -/
theorem claim2_phase_scoped_witness :
    recvRequestOrResume (objMsg [("event", JValue.str "suspend")]) =
      .error .unexpectedState
  ∧ recvNextOrSuspend (objMsg [("event", JValue.str "suspend")]) =
      .ok (.unusual ()) :=
  ⟨(claim2_phase_scoped (objMsg [("event", JValue.str "suspend")])).2.2.2.1 rfl,
   (claim2_phase_scoped
      (objMsg [("event", JValue.str "suspend")])).2.2.2.2.2.1 rfl⟩

/-- C5: `recv()` is total on pulled text and returns a typed error on
every malformed shape: unparsable text and non-object top levels are
`IllegalJsonFormat`, an absent or non-string `"event"` field is
`IllegalEventType`, an event name outside
`{request, next, resume, suspend, cancel}` is `IllegalEventName(name)`,
and every input yields either an Input or an Error — never a crash. -/
theorem claim5_total_typed_errors :
    (recvPure (.msg .malformed) = .error .illegalJsonFormat)
  ∧ (∀ v, (∀ fields, v ≠ JValue.obj fields) →
        recvPure (.msg (.value v)) = .error .illegalJsonFormat)
  ∧ (∀ fields, (removeKey fields "event").1 = none →
        recvPure (objMsg fields) = .error .illegalEventType)
  ∧ (∀ fields v, (removeKey fields "event").1 = some v →
        (∀ s, v ≠ JValue.str s) →
        recvPure (objMsg fields) = .error .illegalEventType)
  ∧ (∀ fields event rest,
        removeKey fields "event" = (some (JValue.str event), rest) →
        event ∉ (["request", "next", "resume", "suspend", "cancel"] :
          List String) →
        recvPure (objMsg fields) = .error (.illegalEventName event))
  ∧ (∀ r : PullResult,
        (∃ i, recvPure r = .ok i) ∨ (∃ e, recvPure r = .error e)) := by
  refine ⟨rfl, ?_, ?_, ?_, ?_, ?_⟩
  · intro v hne
    cases v with
    | obj fields => exact absurd rfl (hne fields)
    | null => rfl
    | bool b => rfl
    | num n => rfl
    | str t => rfl
    | arr xs => rfl
  · intro fields h
    simp only [recvPure, objMsg, decodeMessage]
    rcases he : removeKey fields "event" with ⟨o, rest⟩
    rw [he] at h
    cases o with
    | none => rfl
    | some w => exact Option.noConfusion h
  · intro fields v h hne
    simp only [recvPure, objMsg, decodeMessage]
    rcases he : removeKey fields "event" with ⟨o, rest⟩
    rw [he] at h
    cases o with
    | none => exact Option.noConfusion h
    | some w =>
      replace h : some w = some v := h
      injection h with hw
      subst hw
      cases w with
      | str t => exact absurd rfl (hne t)
      | null => rfl
      | bool b => rfl
      | num n => rfl
      | arr xs => rfl
      | obj f => rfl
  · intro fields event rest hev hne
    rw [decode_obj_event fields rest event hev]
    simp only [List.mem_cons, List.not_mem_nil, or_false, not_or] at hne
    unfold dispatchEvent
    rw [if_neg hne.1, if_neg hne.2.1, if_neg hne.2.2.1, if_neg hne.2.2.2.1,
      if_neg hne.2.2.2.2]
  · intro r
    cases hr : recvPure r with
    | ok i => exact Or.inl ⟨i, rfl⟩
    | error e => exact Or.inr ⟨e, rfl⟩

/-- Witness for C5 at the concrete message `{"event":"bogus"}`. -/
theorem claim5_total_typed_errors_witness :
    recvPure (objMsg [("event", JValue.str "bogus")]) =
      .error (.illegalEventName "bogus") :=
  claim5_total_typed_errors.2.2.2.2.1 [("event", JValue.str "bogus")]
    "bogus" [] rfl (by decide)

end Mould
